import Mathlib

/-!
Shallow embedding of the vps-setup orchestration engine
(src/utils/error-handler.js, src/utils/state.js, the VpsSetupOrchestrator
and CLI argument parsing in vps-setup.js), together with theorems settling
the specification claims about it.
-/

namespace VpsSetup

/-! ### JS string helpers

`jsIncludes hay needle` models `hay.includes(needle)` on JS strings. -/

def startsWithChars : List Char → List Char → Bool
  | [], _ => true
  | _ :: _, [] => false
  | a :: as, b :: bs => a == b && startsWithChars as bs

def hasSubChars (needle : List Char) : List Char → Bool
  | [] => startsWithChars needle []
  | b :: bs => startsWithChars needle (b :: bs) || hasSubChars needle bs

def jsIncludes (hay needle : String) : Bool :=
  hasSubChars needle.data hay.data

/-- Models JS truthiness of an optional string field (`undefined`, `null`
and the empty string are falsy). -/
def jsTruthy : Option String → Bool
  | none => false
  | some s => !(s == "")

/-! ### Error values

A JS `Error` as the classifier sees it: its `message` and machine `code`
(`error.code`), plus `exitCode` which `analyzeError` falls back to when
computing `errorCode`. -/

structure JsError where
  message : String
  code : Option String
  exitCode : Option String
deriving DecidableEq, Repr

/-- The `context` object passed to the error handler: optional
`operation` and `phase` names. -/
structure Context where
  operation : Option String
  phase : Option String
deriving DecidableEq, Repr

def emptyContext : Context := ⟨none, none⟩

/-! ### Error classification (ErrorHandler.isNetworkError .. isConfigurationError) -/

/-- ASCII lowercasing, modelling `message.toLowerCase()` (all keyword
matching in the classifier is over ASCII text). -/
def jsToLower (s : String) : String := ⟨s.data.map Char.toLower⟩

def lowerMessage (e : JsError) : String := jsToLower e.message

def isNetworkError (e : JsError) : Bool :=
  (["network", "connection", "timeout", "dns", "host", "unreachable"].any
    (fun k => jsIncludes (lowerMessage e) k)) ||
  e.code == some "ENOTFOUND" || e.code == some "ECONNREFUSED" ||
  e.code == some "ETIMEDOUT" || e.code == some "ENETUNREACH"

def isPermissionError (e : JsError) : Bool :=
  (["permission", "denied", "access", "unauthorized", "forbidden"].any
    (fun k => jsIncludes (lowerMessage e) k)) ||
  e.code == some "EACCES" || e.code == some "EPERM"

def isPackageManagerError (e : JsError) : Bool :=
  (["package", "dependency", "install", "apt", "dpkg", "repository"].any
    (fun k => jsIncludes (lowerMessage e) k)) ||
  (e.code == some "ENOENT" && jsIncludes (lowerMessage e) "package")

def isFileSystemError (e : JsError) : Bool :=
  (["file", "directory", "disk", "space", "readonly", "busy"].any
    (fun k => jsIncludes (lowerMessage e) k)) ||
  e.code == some "ENOSPC" || e.code == some "EROFS" || e.code == some "EBUSY"

def isCommandNotFoundError (e : JsError) : Bool :=
  jsIncludes (lowerMessage e) "command not found" ||
  jsIncludes (lowerMessage e) "no such file" ||
  (e.code == some "ENOENT" && jsIncludes (lowerMessage e) "command")

def isTimeoutError (e : JsError) : Bool :=
  jsIncludes (lowerMessage e) "timeout" ||
  jsIncludes (lowerMessage e) "timed out" ||
  e.code == some "ETIMEDOUT"

def isConfigurationError (e : JsError) : Bool :=
  ["config", "configuration", "invalid", "syntax", "format"].any
    (fun k => jsIncludes (lowerMessage e) k)

/-! ### ErrorHandler.analyzeError -/

/-- The fixed per-category suggestion table of `analyzeError` as a lookup
(the source inlines these lists in the classification branches); the
`unknown` default branch leaves `suggestions = []`. -/
def baseSuggestions : String → List String
  | "network" =>
      ["Check your internet connection", "Verify DNS settings",
       "Try using a different network", "Check firewall settings"]
  | "permission" =>
      ["Run the command with sudo", "Check file/directory permissions",
       "Verify user has appropriate access rights"]
  | "package-manager" =>
      ["Update package lists: sudo apt update", "Check available disk space",
       "Verify package repository configuration",
       "Try installing dependencies manually"]
  | "filesystem" =>
      ["Check available disk space", "Verify file/directory permissions",
       "Ensure target location is writable", "Check for file locks or conflicts"]
  | "command-not-found" =>
      ["Install the required package", "Check if the command is in PATH",
       "Verify the tool is properly installed", "Try using an alternative command"]
  | "timeout" =>
      ["Check network connectivity", "Try again with a longer timeout",
       "Verify the target service is responsive", "Check system resources"]
  | "configuration" =>
      ["Verify configuration file syntax", "Check required configuration parameters",
       "Ensure configuration files are readable",
       "Validate configuration against schema"]
  | _ => []

/-- The if/else-if chain of `analyzeError`, producing
(category, summary, suggestions) exactly as the branches assign them; the
defaults are `unknown`, the error message, and the empty list. -/
def classifyTriple (e : JsError) : String × String × List String :=
  if isNetworkError e then
    ("network", "Network connectivity issue",
     ["Check your internet connection", "Verify DNS settings",
      "Try using a different network", "Check firewall settings"])
  else if isPermissionError e then
    ("permission", "Permission denied",
     ["Run the command with sudo", "Check file/directory permissions",
      "Verify user has appropriate access rights"])
  else if isPackageManagerError e then
    ("package-manager", "Package installation failed",
     ["Update package lists: sudo apt update", "Check available disk space",
      "Verify package repository configuration",
      "Try installing dependencies manually"])
  else if isFileSystemError e then
    ("filesystem", "File system operation failed",
     ["Check available disk space", "Verify file/directory permissions",
      "Ensure target location is writable", "Check for file locks or conflicts"])
  else if isCommandNotFoundError e then
    ("command-not-found", "Command or tool not found",
     ["Install the required package", "Check if the command is in PATH",
      "Verify the tool is properly installed", "Try using an alternative command"])
  else if isTimeoutError e then
    ("timeout", "Operation timed out",
     ["Check network connectivity", "Try again with a longer timeout",
      "Verify the target service is responsive", "Check system resources"])
  else if isConfigurationError e then
    ("configuration", "Configuration error",
     ["Verify configuration file syntax", "Check required configuration parameters",
      "Ensure configuration files are readable",
      "Validate configuration against schema"])
  else ("unknown", e.message, [])

/-- The context-specific suggestions appended after the chain
(`if (context.operation) ...; if (context.phase) ...`). -/
def contextSuggestions (ctx : Context) : List String :=
  (if jsTruthy ctx.operation then
     ["Review the " ++ ctx.operation.getD "" ++ " operation"] else []) ++
  (if jsTruthy ctx.phase then
     ["Check " ++ ctx.phase.getD "" ++ " phase requirements"] else [])

structure ErrorInfo where
  category : String
  summary : String
  suggestions : List String
  severity : String
  originalError : JsError
  errorCode : Option String
  context : Context
deriving DecidableEq, Repr

/-- Models `ErrorHandler.analyzeError(error, context)`: classifies through the
priority chain, appends context suggestions, and packages the result;
`errorCode` is `error.code || error.exitCode || null`. -/
def analyzeError (e : JsError) (ctx : Context) : ErrorInfo :=
  { category := (classifyTriple e).1
    summary := (classifyTriple e).2.1
    suggestions := (classifyTriple e).2.2 ++ contextSuggestions ctx
    severity := "error"
    originalError := e
    errorCode := match e.code with | some c => some c | none => e.exitCode
    context := ctx }

/-! ### Specification-side classifier (for claim C4)

Modelled from the spec wording: the fixed priority list
network > permission > package-manager > filesystem > command-not-found >
timeout > configuration > unknown, first match winning. -/

def priorityChecks : List (String × (JsError → Bool)) :=
  [("network", isNetworkError),
   ("permission", isPermissionError),
   ("package-manager", isPackageManagerError),
   ("filesystem", isFileSystemError),
   ("command-not-found", isCommandNotFoundError),
   ("timeout", isTimeoutError),
   ("configuration", isConfigurationError)]

def firstMatch (e : JsError) : List (String × (JsError → Bool)) → String
  | [] => "unknown"
  | (name, check) :: rest => if check e then name else firstMatch e rest

def firstMatchCategory (e : JsError) : String :=
  firstMatch e priorityChecks

/-- Claim C4: error classification assigns every error exactly one category,
following the fixed priority order network > permission > package-manager >
filesystem > command-not-found > timeout > configuration > unknown with the
first match winning; a message "ECONNREFUSED: connection refused" classifies
as network and "EACCES: permission denied" as permission. -/
theorem analyzeError_priority_order :
    (∀ (e : JsError) (ctx : Context),
      (analyzeError e ctx).category = firstMatchCategory e) ∧
    (analyzeError ⟨"ECONNREFUSED: connection refused", none, none⟩
      emptyContext).category = "network" ∧
    (analyzeError ⟨"EACCES: permission denied", none, none⟩
      emptyContext).category = "permission" := by
  refine ⟨fun e ctx => ?_, by decide, by decide⟩
  simp only [analyzeError, classifyTriple, firstMatchCategory, firstMatch,
    priorityChecks]
  split_ifs <;> rfl

/-! ### Retry configurations (ErrorHandler.setupRetryConfigs)

Durations and multipliers are modelled over the rationals; the source
stores them as JS numbers and combines them with `*`, `Math.pow` and
`Math.min` exactly as in `calculateDelay`. -/

structure RetryConfig where
  maxRetries : ℕ
  baseDelay : ℚ
  maxDelay : ℚ
  backoffMultiplier : ℚ
deriving DecidableEq, Repr

def networkRetryConfig : RetryConfig :=
  { maxRetries := 3, baseDelay := 1000, maxDelay := 10000, backoffMultiplier := 2 }

def packageInstallRetryConfig : RetryConfig :=
  { maxRetries := 2, baseDelay := 2000, maxDelay := 15000, backoffMultiplier := 3/2 }

def fileOperationRetryConfig : RetryConfig :=
  { maxRetries := 3, baseDelay := 500, maxDelay := 5000, backoffMultiplier := 6/5 }

def commandExecutionRetryConfig : RetryConfig :=
  { maxRetries := 2, baseDelay := 1000, maxDelay := 8000, backoffMultiplier := 3/2 }

def defaultRetryConfig : RetryConfig :=
  { maxRetries := 1, baseDelay := 1000, maxDelay := 5000, backoffMultiplier := 3/2 }

def retryConfigs : List (String × RetryConfig) :=
  [("network", networkRetryConfig),
   ("package-install", packageInstallRetryConfig),
   ("file-operation", fileOperationRetryConfig),
   ("command-execution", commandExecutionRetryConfig),
   ("default", defaultRetryConfig)]

/-- Models `this.retryConfigs.get(operationType) || this.retryConfigs.get(default)`. -/
def getRetryConfig (operationType : String) : RetryConfig :=
  (retryConfigs.lookup operationType).getD defaultRetryConfig

/-- Models `ErrorHandler.calculateDelay(attempt, config)`:
`min(baseDelay * multiplier ^ (attempt - 1), maxDelay)`. -/
def calculateDelay (attempt : ℕ) (config : RetryConfig) : ℚ :=
  min (config.baseDelay * config.backoffMultiplier ^ (attempt - 1)) config.maxDelay

lemma calculateDelay_nonneg (config : RetryConfig)
    (hb : 0 ≤ config.baseDelay) (hm : 1 ≤ config.backoffMultiplier)
    (hx : 0 ≤ config.maxDelay) (attempt : ℕ) :
    0 ≤ calculateDelay attempt config := by
  refine le_min (mul_nonneg hb (pow_nonneg ?_ _)) hx
  exact le_trans zero_le_one hm

lemma calculateDelay_mono (config : RetryConfig)
    (hb : 0 ≤ config.baseDelay) (hm : 1 ≤ config.backoffMultiplier)
    (attempt : ℕ) :
    calculateDelay attempt config ≤ calculateDelay (attempt + 1) config := by
  refine min_le_min (mul_le_mul_of_nonneg_left ?_ hb) le_rfl
  exact pow_le_pow_right₀ hm (Nat.sub_le_sub_right (Nat.le_succ attempt) 1)

/-- Claim C3: for every configured operation category and every attempt
1 ≤ a ≤ maxRetries, the backoff delay equals
min(baseDelay * backoffMultiplier ^ (a - 1), maxDelay), is never negative,
and is monotonically non-decreasing in a. -/
theorem calculateDelay_backoff_formula :
    ∀ p ∈ retryConfigs, ∀ a : ℕ, 1 ≤ a → a ≤ p.2.maxRetries →
      calculateDelay a p.2 =
        min (p.2.baseDelay * p.2.backoffMultiplier ^ (a - 1)) p.2.maxDelay ∧
      0 ≤ calculateDelay a p.2 ∧
      calculateDelay a p.2 ≤ calculateDelay (a + 1) p.2 := by
  have hprops : ∀ p ∈ retryConfigs,
      0 ≤ p.2.baseDelay ∧ 1 ≤ p.2.backoffMultiplier ∧ 0 ≤ p.2.maxDelay := by
    intro p hp
    fin_cases hp <;>
      norm_num [networkRetryConfig, packageInstallRetryConfig,
        fileOperationRetryConfig, commandExecutionRetryConfig, defaultRetryConfig]
  intro p hp a _ _
  obtain ⟨hb, hm, hx⟩ := hprops p hp
  exact ⟨rfl, calculateDelay_nonneg p.2 hb hm hx a, calculateDelay_mono p.2 hb hm a⟩

/-- Witness for C3 at the network category, attempt 2. -/
theorem calculateDelay_backoff_formula_witness :
    (("network", networkRetryConfig) ∈ retryConfigs ∧ (1 : ℕ) ≤ 2 ∧
      2 ≤ networkRetryConfig.maxRetries) ∧
    (calculateDelay 2 networkRetryConfig =
        min (networkRetryConfig.baseDelay *
          networkRetryConfig.backoffMultiplier ^ (2 - 1)) networkRetryConfig.maxDelay ∧
      0 ≤ calculateDelay 2 networkRetryConfig ∧
      calculateDelay 2 networkRetryConfig ≤ calculateDelay 3 networkRetryConfig) :=
  ⟨⟨List.mem_cons_self _ _, by decide, by decide⟩,
    calculateDelay_backoff_formula ("network", networkRetryConfig)
      (List.mem_cons_self _ _) 2 (by decide) (by decide)⟩

/-! ### The enriched error and the retry loop (ErrorHandler.withRetry) -/

/-- The error object built by `ErrorHandler.createEnhancedError`. -/
structure EnhancedError where
  name : String
  message : String
  category : String
  suggestions : List String
  severity : String
  context : Context
  originalError : JsError
  errorCode : Option String
deriving DecidableEq, Repr

def createEnhancedError (originalError : JsError) (errorInfo : ErrorInfo)
    (context : Context) : EnhancedError :=
  { name := "VpsSetupError"
    message := errorInfo.summary
    category := errorInfo.category
    suggestions := errorInfo.suggestions
    severity := errorInfo.severity
    context := context
    originalError := originalError
    errorCode := errorInfo.errorCode }

/-- The `for (attempt = 1; attempt <= maxRetries + 1; attempt++)` loop of
`withRetry`: `op i` is the outcome of the i-th invocation of the operation;
`extra` counts the attempts still allowed after the current one.  Returns
the number of invocations performed together with the last outcome. -/
def attemptLoop (op : ℕ → Except JsError α) : ℕ → ℕ → ℕ × Except JsError α
  | s, 0 => (s, op s)
  | s, extra + 1 =>
    match op s with
    | .ok v => (s, .ok v)
    | .error _ => attemptLoop op (s + 1) extra

/-- Models `ErrorHandler.withRetry(operation, operationType, context)`: runs the
operation up to `maxRetries + 1` times; when every attempt fails it throws
the enhanced error built from the last failure.  The first component is
the number of times the operation was invoked. -/
def withRetry (op : ℕ → Except JsError α) (operationType : String)
    (context : Context) : ℕ × Except EnhancedError α :=
  let config := getRetryConfig operationType
  match attemptLoop op 1 config.maxRetries with
  | (n, .ok v) => (n, .ok v)
  | (n, .error e) =>
    (n, .error (createEnhancedError e (analyzeError e context) context))

lemma attemptLoop_always_error {α : Type} (errs : ℕ → JsError) (s extra : ℕ) :
    attemptLoop (α := α) (fun i => Except.error (errs i)) s extra =
      (s + extra, Except.error (errs (s + extra))) := by
  induction extra generalizing s with
  | zero => simp [attemptLoop]
  | succ n ih =>
    rw [show s + (n + 1) = (s + 1) + n by omega]
    simpa [attemptLoop] using ih (s + 1)

/-- Claim C2: for every operation category, running the retry wrapper on an
operation that fails on every invocation calls the operation exactly
maxRetries + 1 times and then throws the enriched error carrying the
original (last) error, the classified category, the full suggestion list
and the supplied context; the failure is never swallowed. -/
theorem withRetry_always_failing (α : Type) (errs : ℕ → JsError)
    (operationType : String) (context : Context) :
    withRetry (α := α) (fun i => Except.error (errs i)) operationType context =
      ((getRetryConfig operationType).maxRetries + 1,
       Except.error
        { name := "VpsSetupError"
          message := (analyzeError
            (errs ((getRetryConfig operationType).maxRetries + 1)) context).summary
          category := (analyzeError
            (errs ((getRetryConfig operationType).maxRetries + 1)) context).category
          suggestions := (analyzeError
            (errs ((getRetryConfig operationType).maxRetries + 1)) context).suggestions
          severity := (analyzeError
            (errs ((getRetryConfig operationType).maxRetries + 1)) context).severity
          context := context
          originalError := errs ((getRetryConfig operationType).maxRetries + 1)
          errorCode := (analyzeError
            (errs ((getRetryConfig operationType).maxRetries + 1)) context).errorCode }) := by
  have h := attemptLoop_always_error (α := α) errs 1
    (getRetryConfig operationType).maxRetries
  rw [show 1 + (getRetryConfig operationType).maxRetries =
    (getRetryConfig operationType).maxRetries + 1 by omega] at h
  simp only [withRetry, h]
  rfl

/-! ### Persistent run state (src/utils/state.js) -/

structure SystemInfo where
  os : Option String
  distribution : Option String
  shell : Option String
deriving DecidableEq, Repr

/-- One entry of `state.phases`; `shouldSkipPhase` reads its `status`
field.  Further payload fields are irrelevant to the claims. -/
structure PhaseRecord where
  status : Option String
  lastUpdated : Option String
deriving DecidableEq, Repr

/-- The in-memory state shape built by the `StateManager` constructor. -/
structure VpsState where
  version : String
  lastRun : Option String
  phases : List (String × PhaseRecord)
  configs : List (String × PhaseRecord)
  system : SystemInfo
deriving DecidableEq, Repr

def initialState : VpsState :=
  { version := "1.0.0"
    lastRun := none
    phases := []
    configs := []
    system := ⟨none, none, none⟩ }

/-- A parsed state document: top-level keys may each be absent, and
present keys shallowly override the in-memory state (`{...this.state,
...data}`). -/
structure StateDoc where
  version : Option String
  lastRun : Option (Option String)
  phases : Option (List (String × PhaseRecord))
  configs : Option (List (String × PhaseRecord))
  system : Option SystemInfo
deriving DecidableEq, Repr

def mergeStateDoc (s : VpsState) (d : StateDoc) : VpsState :=
  { version := d.version.getD s.version
    lastRun := d.lastRun.getD s.lastRun
    phases := d.phases.getD s.phases
    configs := d.configs.getD s.configs
    system := d.system.getD s.system }

/-- What reading the state file can yield: the file is absent
(`fs.pathExists` false), it exists but `fs.readJson` throws (corrupt), or
it parses to a document. -/
inductive StoreRead where
  | missing : StoreRead
  | corrupt : StoreRead
  | parsed : StateDoc → StoreRead
deriving DecidableEq, Repr

/-- Models `StateManager.load()`: on a missing file the `if` falls through to
`return false`; on a corrupt file `readJson` throws, the catch logs and
falls through to `return false`; either way the in-memory state is left
untouched.  On a parsed document the state is shallowly merged and `true`
is returned.  The function is total: it never throws. -/
def load (read : StoreRead) (s : VpsState) : Bool × VpsState :=
  match read with
  | .missing => (false, s)
  | .corrupt => (false, s)
  | .parsed d => (true, mergeStateDoc s d)

/-- Models `StateManager.isFirstRun()`: `!this.state.lastRun`. -/
def isFirstRun (s : VpsState) : Bool :=
  s.lastRun.isNone

/-- Claim C5: `load()` never throws (it is a total function into
`Bool × VpsState`); when the state file is missing or unparseable the
state is the untouched fresh default, `load` returns false, and
`isFirstRun()` afterwards returns true with an empty phases mapping. -/
theorem load_missing_or_corrupt_fails_soft (read : StoreRead)
    (h : read = .missing ∨ read = .corrupt) :
    load read initialState = (false, initialState) ∧
    isFirstRun (load read initialState).2 = true ∧
    (load read initialState).2.phases = [] := by
  rcases h with h | h <;> subst h <;> exact ⟨rfl, rfl, rfl⟩

/-- Witness for C5 at a missing store file. -/
theorem load_missing_or_corrupt_fails_soft_witness :
    (StoreRead.missing = StoreRead.missing ∨
      StoreRead.missing = StoreRead.corrupt) ∧
    (load .missing initialState = (false, initialState) ∧
      isFirstRun (load .missing initialState).2 = true ∧
      (load .missing initialState).2.phases = []) :=
  ⟨Or.inl rfl, load_missing_or_corrupt_fails_soft .missing (Or.inl rfl)⟩

/-! ### CLI options (vps-setup.js argument parsing) -/

/-- The option fields the CLI argument loop in vps-setup.js can set;
nothing else reaches the orchestrator. -/
structure Options where
  continueOnError : Bool
  skipOptional : Bool
  verbose : Bool
  resetState : Bool
  skipPhases : List String
  forcePhases : List String
deriving DecidableEq, Repr

def defaultOptions : Options :=
  { continueOnError := false, skipOptional := false, verbose := false,
    resetState := false, skipPhases := [], forcePhases := [] }

/-- JS `string.split(sep)` for a single-character separator. -/
def splitChars (sep : Char) : List Char → List (List Char)
  | [] => [[]]
  | x :: xs =>
    if x = sep then [] :: splitChars sep xs
    else
      match splitChars sep xs with
      | h :: t => (x :: h) :: t
      | [] => [[x]]

def jsSplit (sep : Char) (s : String) : List String :=
  (splitChars sep s.data).map (fun l => ⟨l⟩)

def jsSplitComma (s : String) : List String :=
  jsSplit ',' s

/-- The `switch` loop of vps-setup.js over `process.argv.slice(2)`;
`none` models the `--help`/`-h` branch, which prints usage and exits.
A value-taking flag consumes the following argument when there is one. -/
def parseArgsLoop : List String → Options → Option Options
  | [], o => some o
  | arg :: rest, o =>
    if arg = "--continue-on-error" then
      parseArgsLoop rest { o with continueOnError := true }
    else if arg = "--skip-optional" then
      parseArgsLoop rest { o with skipOptional := true }
    else if arg = "--verbose" then
      parseArgsLoop rest { o with verbose := true }
    else if arg = "--skip-phases" then
      match rest with
      | v :: rest2 => parseArgsLoop rest2 { o with skipPhases := jsSplitComma v }
      | [] => some o
    else if arg = "--reset-state" then
      parseArgsLoop rest { o with resetState := true }
    else if arg = "--force-phases" then
      match rest with
      | v :: rest2 => parseArgsLoop rest2 { o with forcePhases := jsSplitComma v }
      | [] => some o
    else if arg = "--help" ∨ arg = "-h" then none
    else parseArgsLoop rest o

def parseArguments (args : List String) : Option Options :=
  parseArgsLoop args defaultOptions

/-! ### The state-manager interface the orchestrator actually gets

`StateManager` (src/utils/state.js) defines exactly these methods; the
orchestrator in its `initializeState`, `runPhases`, `shouldSkipPhase`,
`generateFinalReport` and `handleCriticalError` calls the second list.
Calling an undefined member of a JS object throws a `TypeError`. -/

def stateManagerMethods : List String :=
  ["load", "save", "setPhaseStatus", "getPhaseStatus", "setConfigStatus",
   "getConfigStatus", "setSystemInfo", "getSystemInfo", "isFirstRun",
   "getLastRun", "reset"]

def orchestratorStateManagerCalls : List String :=
  ["loadState", "initializeState", "getPhaseState", "updatePhaseState",
   "saveState", "updateErrorState"]

/-- The `TypeError` raised by invoking a missing method. -/
def methodTypeError (m : String) : JsError :=
  ⟨"this.stateManager." ++ m ++ " is not a function", some "TypeError", none⟩

/-- Evaluation of `this.stateManager.getPhaseState(name)`: the property
lookup yields the method only when `StateManager` defines it, otherwise
the call throws a `TypeError` before any state is consulted. -/
def getPhaseStateResult (st : VpsState) (phaseName : String) :
    Except JsError (Option PhaseRecord) :=
  if stateManagerMethods.contains "getPhaseState" then
    .ok (st.phases.lookup phaseName)
  else
    .error (methodTypeError "getPhaseState")

/-- Models `VpsSetupOrchestrator.shouldSkipPhase(phase, options)`: asks the state
manager for the phase record, skips on persisted status completed, on
membership in `options.skipPhases`, or when optional and
`options.skipOptional`; no other option is consulted. -/
def shouldSkipPhase (st : VpsState) (phaseName : String) (isOptional : Bool)
    (options : Options) : Except JsError Bool := do
  let phaseState ← getPhaseStateResult st phaseName
  if (match phaseState with
      | some r => r.status == some "completed"
      | none => false) then
    return true
  else if options.skipPhases.contains phaseName then
    return true
  else if isOptional && options.skipOptional then
    return true
  else
    return false

/-- Claim C10: `StateManager` never defines any of the methods the
orchestrator invokes on it, so for every persisted state, phase name and
options value the skip check throws a `TypeError` before consulting the
persisted status, making the already-completed skip branch unreachable. -/
theorem shouldSkipPhase_always_type_error :
    (∀ m ∈ orchestratorStateManagerCalls, m ∉ stateManagerMethods) ∧
    ∀ (st : VpsState) (phaseName : String) (isOptional : Bool) (options : Options),
      shouldSkipPhase st phaseName isOptional options =
        .error (methodTypeError "getPhaseState") := by
  exact ⟨by decide, fun st phaseName isOptional options => rfl⟩

/-- Witness for C10 at the Configuration phase with default options. -/
theorem shouldSkipPhase_always_type_error_witness :
    "getPhaseState" ∉ stateManagerMethods ∧
    shouldSkipPhase initialState "Configuration" false defaultOptions =
      .error (methodTypeError "getPhaseState") :=
  ⟨shouldSkipPhase_always_type_error.1 "getPhaseState" (by decide),
    shouldSkipPhase_always_type_error.2 initialState "Configuration" false
      defaultOptions⟩

/-- A persisted state in which the Configuration phase is recorded as
completed. -/
def completedConfigState : VpsState :=
  { initialState with
      phases := [("Configuration", ⟨some "completed", some "2024-01-01T00:00:00Z"⟩)] }

/-- Options as produced by `--force-phases Configuration`. -/
def forcedConfigOptions : Options :=
  { defaultOptions with forcePhases := ["Configuration"] }

/-- Options as produced by `--force-phases Configuration --reset-state`. -/
def forcedResetOptions : Options :=
  { forcedConfigOptions with resetState := true }

/-- Claim C1 (failing input): `--force-phases Configuration` parses into
`forcePhases = ["Configuration"]`, yet on a state whose Configuration
record is completed the skip check neither consults `forcePhases` or
`resetState` (its definition never reads them) nor re-executes the phase:
it throws the `getPhaseState` `TypeError`, so the claimed force-override
of the completed-skip rule never happens. -/
theorem forcePhases_does_not_force_rerun :
    parseArguments ["--force-phases", "Configuration"] = some forcedConfigOptions ∧
    shouldSkipPhase completedConfigState "Configuration" false forcedConfigOptions =
      .error (methodTypeError "getPhaseState") ∧
    shouldSkipPhase completedConfigState "Configuration" false defaultOptions =
      shouldSkipPhase completedConfigState "Configuration" false forcedResetOptions := by
  exact ⟨rfl, rfl, rfl⟩

/-! ### The phase loop (VpsSetupOrchestrator.runPhases)

Phase bodies are pluggable external collaborators, so a phase is modelled
by the observable outcomes of the three steps the loop body performs on
it: the skip check, the `runPhase` invocation, and the
`updatePhaseState` call after a success.  `runPhases` returns the error
ledger (`this.errors`), the names of the phases whose body was invoked
through `runPhase`, and whether the loop completed or aborted with a
thrown error. -/

structure ErrorRecord where
  phase : String
  message : String
deriving DecidableEq, Repr

structure PhaseExec where
  name : String
  skipCheck : Except JsError Bool
  runOutcome : Except JsError Unit
  updateOutcome : Except JsError Unit
deriving Repr

/-- One iteration of the `for` loop of `runPhases` plus its sequel: an
exception from the skip check or the state update is caught by the
`catch`, which records it and rethrows unless `continueOnError === true`;
a `{success:false}` result is recorded, then (unless continuing) wrapped
in a new error that the `catch` records a second time and rethrows. -/
def runPhases (continueOnError : Bool) :
    List PhaseExec → List ErrorRecord × List String × Except JsError Unit
  | [] => ([], [], .ok ())
  | p :: rest =>
    match p.skipCheck with
    | .error e =>
      if continueOnError then
        let r := runPhases continueOnError rest
        (⟨p.name, e.message⟩ :: r.1, r.2.1, r.2.2)
      else ([⟨p.name, e.message⟩], [], .error e)
    | .ok true => runPhases continueOnError rest
    | .ok false =>
      match p.runOutcome with
      | .ok _ =>
        match p.updateOutcome with
        | .ok _ =>
          let r := runPhases continueOnError rest
          (r.1, p.name :: r.2.1, r.2.2)
        | .error e =>
          if continueOnError then
            let r := runPhases continueOnError rest
            (⟨p.name, e.message⟩ :: r.1, p.name :: r.2.1, r.2.2)
          else ([⟨p.name, e.message⟩], [p.name], .error e)
      | .error e =>
        if continueOnError then
          let r := runPhases continueOnError rest
          (⟨p.name, e.message⟩ :: r.1, p.name :: r.2.1, r.2.2)
        else
          ([⟨p.name, e.message⟩,
            ⟨p.name, "Phase " ++ p.name ++ " failed: " ++ e.message⟩],
           [p.name],
           .error ⟨"Phase " ++ p.name ++ " failed: " ++ e.message, none, none⟩)

/-- Claim C6: when the execution of a phase returns an unsuccessful outcome the
orchestrator appends an error record for that phase; with continueOnError
it proceeds to the next declared phase, otherwise it aborts at once: no
later phase is attempted and the error surfaces as the terminal failure
of the run. -/
theorem runPhases_failure_policy (e : JsError) (p : PhaseExec)
    (rest : List PhaseExec)
    (hskip : p.skipCheck = .ok false) (hrun : p.runOutcome = .error e) :
    runPhases true (p :: rest) =
      ((⟨p.name, e.message⟩ : ErrorRecord) :: (runPhases true rest).1,
        p.name :: (runPhases true rest).2.1, (runPhases true rest).2.2) ∧
    runPhases false (p :: rest) =
      ([⟨p.name, e.message⟩,
        ⟨p.name, "Phase " ++ p.name ++ " failed: " ++ e.message⟩],
       [p.name],
       .error ⟨"Phase " ++ p.name ++ " failed: " ++ e.message, none, none⟩) := by
  constructor <;> simp [runPhases, hskip, hrun]

/-- A phase whose body fails, followed by a phase that would succeed. -/
def failingExec : PhaseExec :=
  ⟨"Tools", .ok false, .error ⟨"boom", none, none⟩, .ok ()⟩

def nextExec : PhaseExec :=
  ⟨"Configuration", .ok false, .ok (), .ok ()⟩

/-- Witness for C6: a failing Tools phase with continueOnError off aborts
with the wrapped error, records two entries for Tools, and never attempts
the following Configuration phase. -/
theorem runPhases_failure_policy_witness :
    failingExec.skipCheck = .ok false ∧
    failingExec.runOutcome = .error ⟨"boom", none, none⟩ ∧
    runPhases false [failingExec, nextExec] =
      ([⟨"Tools", "boom"⟩, ⟨"Tools", "Phase Tools failed: boom"⟩],
       ["Tools"], .error ⟨"Phase Tools failed: boom", none, none⟩) :=
  ⟨rfl, rfl,
    (runPhases_failure_policy ⟨"boom", none, none⟩ failingExec [nextExec]
      rfl rfl).2⟩

/-! ### The per-phase timeout (VpsSetupOrchestrator.runPhase) -/

/-- The timeout `runPhase` races the phase body against: the literal
`300000` (5 minutes) in `setTimeout(..., 300000)`.  It is a constant of
the source: no caller argument, option or field feeds into it. -/
def phaseTimeoutMs (_options : Options) : ℕ := 300000

structure RunPhaseResult where
  success : Bool
  errorMessage : Option String
  duration : ℕ
deriving DecidableEq, Repr

/-- Models `runPhase(phase, options)`: `Promise.race` of the phase body (which
settles after `phaseDuration` ms with `phaseOutcome`) against the timer;
if the timer fires first the `catch` turns the rejection into
`{success:false, error: Error("Phase timeout")}`; a body rejection is
likewise caught; a resolution yields `{success:true}`. -/
def runPhase (options : Options) (phaseDuration : ℕ)
    (phaseOutcome : Except JsError Unit) : RunPhaseResult :=
  if phaseTimeoutMs options < phaseDuration then
    { success := false, errorMessage := some "Phase timeout",
      duration := phaseTimeoutMs options }
  else
    match phaseOutcome with
    | .ok _ => { success := true, errorMessage := none, duration := phaseDuration }
    | .error e =>
      { success := false, errorMessage := some e.message, duration := phaseDuration }

/-- Counterexample to C8: no caller-supplied options value can override
the phase timeout - it is 300000 ms for every options value - and a phase
resolving after the timer still yields the timeout failure. -/
theorem phase_timeout_not_overridable :
    (¬ ∃ options : Options, phaseTimeoutMs options ≠ 300000) ∧
    runPhase forcedResetOptions 300001 (.ok ()) =
      { success := false, errorMessage := some "Phase timeout",
        duration := 300000 } := by
  refine ⟨fun h => ?_, rfl⟩
  obtain ⟨o, ho⟩ := h
  exact ho rfl

/-- Claim C8 as amended: every phase body runs under a timeout race fixed
at 5 minutes (300000 ms, not overridable); when the timer fires before
the phase resolves, the outcome handed to the orchestrator is a failure
carrying the distinguishable "Phase timeout" error, whatever the phase
body itself would have produced. -/
theorem runPhase_timeout_failure (options : Options) (phaseDuration : ℕ)
    (phaseOutcome : Except JsError Unit)
    (h : 300000 < phaseDuration) :
    phaseTimeoutMs options = 300000 ∧
    runPhase options phaseDuration phaseOutcome =
      { success := false, errorMessage := some "Phase timeout",
        duration := 300000 } := by
  refine ⟨rfl, ?_⟩
  simp [runPhase, phaseTimeoutMs, h]

/-- Witness for C8 (amended) at a phase resolving after 300001 ms. -/
theorem runPhase_timeout_failure_witness :
    300000 < 300001 ∧
    (phaseTimeoutMs defaultOptions = 300000 ∧
      runPhase defaultOptions 300001 (.error ⟨"own failure", none, none⟩) =
        { success := false, errorMessage := some "Phase timeout",
          duration := 300000 }) :=
  ⟨by decide,
    runPhase_timeout_failure defaultOptions 300001
      (.error ⟨"own failure", none, none⟩) (by decide)⟩

/-! ### Error tally and final report
(ErrorHandler.recordError / getErrorStatistics / generateErrorReport and
VpsSetupOrchestrator.generateFinalReport) -/

/-- The tally key: category, a colon, then the operation name from the
context when that is truthy and the literal text unknown otherwise. -/
def recordKey (category : String) (operation : Option String) : String :=
  category ++ ":" ++ (if jsTruthy operation then operation.getD "" else "unknown")

/-- Models `this.errorCounts.set(key, (this.errorCounts.get(key) || 0) + 1)` on a
Map modelled as an insertion-ordered association list. -/
def bumpTally (key : String) : List (String × ℕ) → List (String × ℕ)
  | [] => [(key, 1)]
  | (k, c) :: rest =>
    if k = key then (k, c + 1) :: rest else (k, c) :: bumpTally key rest

/-- Models `ErrorHandler.recordError(category, context)` acting on the tally. -/
def recordError (tally : List (String × ℕ)) (category : String)
    (ctx : Context) : List (String × ℕ) :=
  bumpTally (recordKey category ctx.operation) tally

def opsSet (op : String) (count : ℕ) :
    List (String × ℕ) → List (String × ℕ)
  | [] => [(op, count)]
  | (o, n) :: rest =>
    if o = op then (o, count) :: rest else (o, n) :: opsSet op count rest

def statsSet (cat op : String) (count : ℕ) :
    List (String × List (String × ℕ)) → List (String × List (String × ℕ))
  | [] => [(cat, [(op, count)])]
  | (c, ops) :: rest =>
    if c = cat then (c, opsSet op count ops) :: rest
    else (c, ops) :: statsSet cat op count rest

/-- Models `ErrorHandler.getErrorStatistics()`: each tally key is split on the
colon and destructured as `[category, operation]` (a missing second part
indexes the stats object with the string rendering of `undefined`). -/
def getErrorStatistics (tally : List (String × ℕ)) :
    List (String × List (String × ℕ)) :=
  tally.foldl
    (fun stats kv =>
      let parts := jsSplit ':' kv.1
      statsSet (parts.getD 0 "undefined") (parts.getD 1 "undefined") kv.2 stats)
    []

def statsTotal (stats : List (String × List (String × ℕ))) : ℕ :=
  (stats.map (fun c => (c.2.map Prod.snd).sum)).sum

/-- Models `ErrorHandler.generateRecommendations(stats)`. -/
def generateRecommendations (stats : List (String × List (String × ℕ))) :
    List String :=
  (if (stats.lookup "network").isSome then
     ["Check network connectivity and firewall settings"] else []) ++
  (if (stats.lookup "permission").isSome then
     ["Ensure proper permissions or run with elevated privileges"] else []) ++
  (if (stats.lookup "package-manager").isSome then
     ["Update package lists and check repository configuration"] else []) ++
  (if (stats.lookup "filesystem").isSome then
     ["Check available disk space and file permissions"] else [])

structure ErrorReport where
  totalErrors : ℕ
  errorBreakdown : List (String × List (String × ℕ))
  recommendations : List String
deriving DecidableEq, Repr

/-- Models `ErrorHandler.generateErrorReport()` over the current tally. -/
def generateErrorReport (tally : List (String × ℕ)) : ErrorReport :=
  let stats := getErrorStatistics tally
  { totalErrors := statsTotal stats
    errorBreakdown := stats
    recommendations := generateRecommendations stats }

structure FinalReport where
  totalPhases : ℕ
  phasesCompleted : ℕ
  errorReport : ErrorReport
  criticalErrors : List ErrorRecord
deriving DecidableEq, Repr

/-- Models `VpsSetupOrchestrator.generateFinalReport()`: pure aggregation of the
phase count, the error ledger (printed literally with phase and message),
and the ErrorHandler report over its tally at run end. -/
def generateFinalReport (totalPhases : ℕ) (errors : List ErrorRecord)
    (tally : List (String × ℕ)) : FinalReport :=
  { totalPhases := totalPhases
    phasesCompleted := totalPhases - errors.length
    errorReport := generateErrorReport tally
    criticalErrors := errors }

/-- A whole run as `run()` sequences it: the final report is generated
only when `runPhases` returned instead of throwing, and it reads the
ErrorHandler tally, which starts empty in the constructor and is never
incremented - `recordError` has no call site anywhere in the repository. -/
def orchestratorRunReport (continueOnError : Bool)
    (phases : List PhaseExec) : Option FinalReport :=
  match runPhases continueOnError phases with
  | (errors, _, .ok _) => some (generateFinalReport phases.length errors [])
  | (_, _, .error _) => none

/-- A phase whose body fails with a network-classified error. -/
def networkFailExec : PhaseExec :=
  ⟨"Tools", .ok false, .error ⟨"network unreachable during download", none, none⟩,
   .ok ()⟩

/-- Counterexample to C7: a continue-on-error run in which one phase fails
terminally with a network-classified error ends with one literal error
record in the report, yet the per-(category, operation) statistics are
empty - the reported network count is zero, not one. -/
theorem report_statistics_miss_terminal_errors :
    (analyzeError ⟨"network unreachable during download", none, none⟩
      emptyContext).category = "network" ∧
    orchestratorRunReport true [networkFailExec] =
      some { totalPhases := 1
             phasesCompleted := 0
             errorReport := { totalErrors := 0, errorBreakdown := [],
                              recommendations := [] }
             criticalErrors :=
               [⟨"Tools", "network unreachable during download"⟩] } := by
  exact ⟨by decide, rfl⟩

/-- Claim C7 as amended: the final report lists the literal terminal error
records with phase and message, and its statistics section reports the
ErrorHandler recordError tally - but no code path invokes recordError, so
the reported per-(category, operation) counts are zero and the breakdown
empty on every run that reaches the report, regardless of the terminal
errors in the ledger. -/
theorem report_reflects_empty_recordError_tally
    (continueOnError : Bool) (phases : List PhaseExec) (report : FinalReport)
    (h : orchestratorRunReport continueOnError phases = some report) :
    report.errorReport = generateErrorReport [] ∧
    report.errorReport.errorBreakdown = [] ∧
    report.errorReport.totalErrors = 0 ∧
    report.criticalErrors = (runPhases continueOnError phases).1 ∧
    report.totalPhases = phases.length := by
  unfold orchestratorRunReport at h
  rcases hr : runPhases continueOnError phases with ⟨errors, attempted, res⟩
  rw [hr] at h
  cases res with
  | error e => simp at h
  | ok u =>
    simp only [Option.some.injEq] at h
    subst h
    refine ⟨rfl, rfl, rfl, ?_, rfl⟩
    simp [generateFinalReport, hr]

/-- Witness for C7 (amended) at the single failing-phase run. -/
theorem report_reflects_empty_recordError_tally_witness :
    orchestratorRunReport true [networkFailExec] =
      some (generateFinalReport 1
        [⟨"Tools", "network unreachable during download"⟩] []) ∧
    ((generateFinalReport 1
        [⟨"Tools", "network unreachable during download"⟩] []).errorReport =
          generateErrorReport [] ∧
      (generateFinalReport 1
        [⟨"Tools", "network unreachable during download"⟩] []).errorReport.errorBreakdown = [] ∧
      (generateFinalReport 1
        [⟨"Tools", "network unreachable during download"⟩] []).errorReport.totalErrors = 0 ∧
      (generateFinalReport 1
        [⟨"Tools", "network unreachable during download"⟩] []).criticalErrors =
          (runPhases true [networkFailExec]).1 ∧
      (generateFinalReport 1
        [⟨"Tools", "network unreachable during download"⟩] []).totalPhases =
          [networkFailExec].length) :=
  ⟨rfl,
    report_reflects_empty_recordError_tally true [networkFailExec]
      (generateFinalReport 1 [⟨"Tools", "network unreachable during download"⟩] [])
      rfl⟩

/-! ### Suggestion lists on terminal failure (claim C9) -/

/-- Counterexample to C9: an error matching no classification keyword and
carrying no context is classified unknown with an empty suggestion list,
so there is no first suggestion to report. -/
theorem unknown_category_empty_suggestions :
    (analyzeError ⟨"zzz", none, none⟩ emptyContext).category = "unknown" ∧
    (analyzeError ⟨"zzz", none, none⟩ emptyContext).suggestions = [] := by
  exact ⟨by decide, by decide⟩

/-- Claim C9 as amended: each of the seven non-unknown categories carries
a fixed, non-empty suggestion list; the unknown category carries the
empty list; and every analyzed error carries exactly the fixed list of its
category followed by the context-specific hints, so the first suggestion
exists and is reported exactly when that combined list is non-empty. -/
theorem category_suggestion_lists :
    (∀ c ∈ ["network", "permission", "package-manager", "filesystem",
            "command-not-found", "timeout", "configuration"],
      baseSuggestions c ≠ []) ∧
    baseSuggestions "unknown" = [] ∧
    ∀ (e : JsError) (ctx : Context),
      (analyzeError e ctx).suggestions =
        baseSuggestions (analyzeError e ctx).category ++ contextSuggestions ctx := by
  refine ⟨by decide, rfl, fun e ctx => ?_⟩
  simp only [analyzeError, classifyTriple]
  split_ifs <;> rfl

/-- Witness for C9 (amended) at the network category and a concrete
unknown-classified error. -/
theorem category_suggestion_lists_witness :
    baseSuggestions "network" ≠ [] ∧
    (analyzeError ⟨"zzz", none, none⟩ emptyContext).suggestions =
      baseSuggestions (analyzeError ⟨"zzz", none, none⟩ emptyContext).category ++
        contextSuggestions emptyContext :=
  ⟨category_suggestion_lists.1 "network" (by decide),
    category_suggestion_lists.2.2 ⟨"zzz", none, none⟩ emptyContext⟩

end VpsSetup
